import Mathlib

/-!
Verification of the rodwer JavaScript coverage engine: script classifier,
coverage bitmap builder, metrics calculator and report assembler.

Go strings are modeled as lists of characters (`GoStr`); for the ASCII data
handled here the Go byte length coincides with the character count.  Go `int`
values are modeled as `Int`, Go `float64` results of integer divisions are
modeled exactly in `Rat`.  Go maps from reason strings to counters are modeled
by the list of recorded reason strings together with a count function.
-/

/-- Go strings, modeled as lists of characters. -/
abbrev GoStr := List Char

/-- Embeds a Lean string literal as a `GoStr`. -/
def gs (s : String) : GoStr := s.data

/-- Whitespace test used by strings.TrimSpace (Go unicode.IsSpace on the
Latin-1 range; the sources only ever contain ASCII whitespace). -/
def goIsSpace (c : Char) : Bool :=
  c = ' ' || c = '\t' || c = '\n' || c = '\x0b' || c = '\x0c' || c = '\r' ||
  c = '\x85' || c = '\xa0'

/-- Model of Go strings.TrimSpace. -/
def goTrimSpace (s : GoStr) : GoStr :=
  ((s.dropWhile goIsSpace).reverse.dropWhile goIsSpace).reverse

/-- Model of Go strings.ToLower (character-wise; ASCII case folding). -/
def goToLower (s : GoStr) : GoStr := s.map Char.toLower

/-- Model of Go strings.HasPrefix: does `s` start with `pre`. -/
def goStartsWith (s pre : GoStr) : Bool := pre.isPrefixOf s

/-- Model of Go strings.Contains: does `s` contain `sub` as a substring. -/
def goContains (s sub : GoStr) : Bool :=
  match s with
  | [] => sub.isEmpty
  | c :: rest => sub.isPrefixOf (c :: rest) || goContains rest sub

/-- Model of Go strings.Index: position of the first occurrence of `sub`
in `s`, or none. -/
def goIndexOf : GoStr → GoStr → Option Nat
  | [], sub => if sub.isEmpty then some 0 else none
  | c :: rest, sub =>
    if sub.isPrefixOf (c :: rest) then some 0
    else (goIndexOf rest sub).map (· + 1)

/-- Counts non-overlapping occurrences of a non-empty pattern, scanning left
to right (the recursive core of Go strings.Count). -/
def goSubstrCountPos (s sub : GoStr) : Nat :=
  match s with
  | [] => 0
  | c :: rest =>
    if sub.isPrefixOf (c :: rest) then
      1 + goSubstrCountPos (rest.drop (sub.length - 1)) sub
    else
      goSubstrCountPos rest sub
termination_by s.length
decreasing_by
  · simp [List.length_drop]; omega
  · simp

/-- Model of Go strings.Count: non-overlapping occurrences of `sub` in `s`;
for an empty pattern Go returns one more than the rune count. -/
def goSubstrCount (s sub : GoStr) : Nat :=
  if sub.isEmpty then s.length + 1 else goSubstrCountPos s sub

/-- Model of Go strings.Split with separator a single newline. -/
def goSplitLines : GoStr → List GoStr
  | [] => [[]]
  | c :: rest =>
    if c = '\n' then [] :: goSplitLines rest
    else
      match goSplitLines rest with
      | h :: t => (c :: h) :: t
      | [] => [[c]]

/-- Model of the Go byte-lexicographic string order used by `<` on strings. -/
def goStrLt : GoStr → GoStr → Bool
  | [], [] => false
  | [], _ :: _ => true
  | _ :: _, [] => false
  | a :: as, b :: bs =>
    if a < b then true else if b < a then false else goStrLt as bs

/-- Non-strict counterpart of `goStrLt`, used to model the order produced by
sort.Slice with the strict comparison. -/
def goStrLe (a b : GoStr) : Bool := !(goStrLt b a)

/-- Model of proto.ProfilerCoverageRange: a byte range with an execution
count (Go int fields). -/
structure CoverageRange where
  startOffset : Int
  endOffset : Int
  count : Int
deriving DecidableEq

/-- Model of proto.ProfilerFunctionCoverage: a named group of ranges. -/
structure FunctionCoverage where
  functionName : GoStr
  ranges : List CoverageRange
deriving DecidableEq

/-- Model of proto.ProfilerScriptCoverage: one captured script. -/
structure ScriptCoverage where
  scriptId : GoStr
  url : GoStr
  functions : List FunctionCoverage
deriving DecidableEq

/-- Model of CoverageFilterOptions from browser_test.go. -/
structure CoverageFilterOptions where
  excludeEmptyURLs : Bool
  excludeDevTools : Bool
  excludeBrowserExt : Bool
  excludeFrameworkTools : Bool
  excludeCDNLibraries : Bool
  excludeMinifiedCode : Bool
  excludeTestFrameworks : Bool
  excludeHighDensityInlineScripts : Bool
  excludeInlineSystemScripts : Bool
  minScriptSize : Int
  maxStatementsPerLine : Int
  customExcludePatterns : List GoStr
  customIncludePatterns : List GoStr
deriving DecidableEq

/-- Model of getFilterOptions: maps a profile name to concrete options
(identical in browser_test.go and coverage_templates.go; the switch without a
matching case, including the explicit default case, keeps the base options). -/
def getFilterOptions (profile : GoStr) : CoverageFilterOptions :=
  let options : CoverageFilterOptions :=
    { excludeEmptyURLs := true
      excludeDevTools := true
      excludeBrowserExt := true
      excludeFrameworkTools := true
      excludeCDNLibraries := true
      excludeMinifiedCode := true
      excludeTestFrameworks := true
      excludeHighDensityInlineScripts := true
      excludeInlineSystemScripts := true
      minScriptSize := 30
      maxStatementsPerLine := 50
      customExcludePatterns := []
      customIncludePatterns := [] }
  if profile = gs "development" then
    { options with
      excludeFrameworkTools := false
      excludeMinifiedCode := false
      excludeTestFrameworks := false
      excludeHighDensityInlineScripts := false
      minScriptSize := 10
      maxStatementsPerLine := 100 }
  else if profile = gs "production" then
    { options with minScriptSize := 50, maxStatementsPerLine := 5 }
  else if profile = gs "application" then
    { options with minScriptSize := 15, maxStatementsPerLine := 5 }
  else
    options

/-- Splits a string at the first occurrence of `sub`: returns the part before
the match and the part after it.  Models the strings.Index plus slicing steps
of removeJavaScriptComments; the carried equation records the obvious length
accounting and is only used for the termination argument below. -/
def splitAtSub : (s sub : GoStr) →
    Option { p : GoStr × GoStr // p.1.length + sub.length + p.2.length = s.length }
  | s, sub =>
    if h : sub.isPrefixOf s then
      some ⟨([], s.drop sub.length), by
        have hpre := List.isPrefixOf_iff_prefix.mp h
        have hle := hpre.length_le
        simp [List.length_drop]
        omega⟩
    else
      match s with
      | [] => none
      | c :: rest =>
        (splitAtSub rest sub).map fun p =>
          ⟨(c :: p.1.1, p.1.2), by have := p.2; simp; omega⟩

/-- Scanner of removeJavaScriptComments phase one: finds the index of a //
comment start outside string literals (state: current index, inString,
escaped), mirroring the per-line character loop of the Go source. -/
def findLineCommentStart : GoStr → Nat → Bool → Bool → Option Nat
  | [], _, _, _ => none
  | c :: rest, i, inString, escaped =>
    if escaped then findLineCommentStart rest (i + 1) inString false
    else if c = '\\' && inString then findLineCommentStart rest (i + 1) inString true
    else if c = '"' || c = '\'' then findLineCommentStart rest (i + 1) (!inString) escaped
    else if !inString && c = '/' && rest.head? = some '/' then some i
    else findLineCommentStart rest (i + 1) inString escaped

/-- Truncates one line at the // comment found by the scanner (the
line[:commentStart] step of the Go source). -/
def stripLineComment (line : GoStr) : GoStr :=
  match findLineCommentStart line 0 false false with
  | some commentStart => line.take commentStart
  | none => line

/-- Phase one of removeJavaScriptComments: every line is truncated at its //
comment and the lines are rejoined with newlines. -/
def removeLineComments (source : GoStr) : GoStr :=
  List.intercalate (gs "\n") ((goSplitLines source).map stripLineComment)

/-- Phase two of removeJavaScriptComments: repeatedly removes the first
/- -/ style block; on an unterminated block the remainder is dropped.
Mirrors the unconditional for loop of the Go source. -/
def removeBlockComments (result : GoStr) : GoStr :=
  match splitAtSub result (gs "/*") with
  | none => result
  | some ⟨(before, afterOpen), hOpen⟩ =>
    match splitAtSub afterOpen (gs "*/") with
    | none => before
    | some ⟨(_, afterClose), hClose⟩ => removeBlockComments (before ++ afterClose)
termination_by result.length
decreasing_by
  have h2 : (gs "/*").length = 2 := rfl
  have h3 : (gs "*/").length = 2 := rfl
  dsimp only at hOpen hClose
  simp only [List.length_append]
  omega

/-- Model of removeJavaScriptComments from browser_test.go: single-line
comments are removed line by line, then block comments are removed. -/
def removeJavaScriptComments (source : GoStr) : GoStr :=
  removeBlockComments (removeLineComments source)

/-- Statement keyword patterns counted by countJavaScriptStatements. -/
def statementPatterns : List GoStr :=
  [gs "function ", gs "var ", gs "let ", gs "const ", gs "if ", gs "for ",
   gs "while ", gs "return ", gs "throw ", gs "try ", gs "catch ",
   gs "switch ", gs "case ", gs "break", gs "continue", gs "class ",
   gs "import ", gs "export "]

/-- Model of countJavaScriptStatements: semicolon count versus keyword
pattern count on the comment-stripped source, the larger one wins. -/
def countJavaScriptStatements (source : GoStr) : Nat :=
  if source.isEmpty then 0
  else
    let source := removeJavaScriptComments source
    let semicolonCount := goSubstrCount source (gs ";")
    let sourceLower := goToLower source
    let patternCount :=
      statementPatterns.foldl (fun acc pattern => acc + goSubstrCount sourceLower pattern) 0
    if semicolonCount > patternCount then semicolonCount else patternCount

/-- Adjacent-identical-line counter of isRepetitiveContent: counts indices
whose trimmed line is non-empty and equal to the next trimmed line. -/
def countAdjacentIdentical : List GoStr → Nat
  | [] => 0
  | [_] => 0
  | l1 :: l2 :: rest =>
    (if !(goTrimSpace l1).isEmpty && goTrimSpace l1 == goTrimSpace l2 then 1 else 0) +
      countAdjacentIdentical (l2 :: rest)

/-- Repeated character sequences checked by isRepetitiveContent. -/
def repetitiveSequences : List GoStr :=
  [gs "...", gs "===", gs "!!!", gs "???", gs "000", gs "111"]

/-- Model of isRepetitiveContent from browser_test.go.  The float comparison
ratio > 0.6 on two small integer counts is modeled exactly over Rat. -/
def isRepetitiveContent (source : GoStr) : Bool :=
  if source.length < 100 then false
  else
    let lines := goSplitLines source
    if lines.length < 3 then false
    else
      let identicalLines := countAdjacentIdentical lines
      if ((identicalLines : Rat) / (lines.length : Rat) > 6 / 10 : Bool) then true
      else repetitiveSequences.any fun pattern => goSubstrCount source pattern > 10

/-- DevTools and automation signature substrings (browser_test.go variant). -/
def devToolsPatterns : List GoStr :=
  [gs "functions.selectable", gs "functions.element", gs "f.toString",
   gs "__coverage__", gs "webdriver", gs "puppeteer", gs "playwright",
   gs "rod", gs "chromedriver", gs "seleniumwebdriver"]

/-- Browser console no-op statements treated as browser internals. -/
def browserInternalPatterns : List GoStr :=
  [gs "console.clear()", gs "console.time()", gs "console.group()",
   gs "console.clear", gs "console.time", gs "console.group"]

/-- Bundler and framework devtools signature substrings. -/
def frameworkToolPatterns : List GoStr :=
  [gs "__REACT_DEVTOOLS_GLOBAL_HOOK__", gs "react-devtools", gs "ReactDevTools",
   gs "__REACT_HOT_LOADER__", gs "react-hot-loader", gs "webpack-hot-middleware",
   gs "__VUE_DEVTOOLS_GLOBAL_HOOK__", gs "vue-devtools", gs "VueDevTools",
   gs "vue-hot-reload-api", gs "__VUE_HMR_RUNTIME__",
   gs "ng.probe", gs "ng.coreTokens", gs "getAllAngularRootElements",
   gs "@angular/core/bundles", gs "zone.js/bundles",
   gs "webpack://", gs "webpackBootstrap", gs "__webpack_require__",
   gs "(function(module, exports, __webpack_require__)",
   gs "parcelRequire", gs "rollupPluginBabelHelpers",
   gs "//# sourceMappingURL=", gs "//# sourceURL="]

/-- Known CDN host substrings. -/
def cdnPatterns : List GoStr :=
  [gs "cdn.jsdelivr.net", gs "unpkg.com", gs "cdnjs.cloudflare.com",
   gs "ajax.googleapis.com", gs "code.jquery.com", gs "stackpath.bootstrapcdn.com",
   gs "maxcdn.bootstrapcdn.com", gs "use.fontawesome.com", gs "fonts.googleapis.com",
   gs "polyfill.io", gs "cdn.polyfill.io", gs "cloudflare.com/ajax/libs"]

/-- Generated-code marker phrases. -/
def generatedCodeMarkers : List GoStr :=
  [gs "this file was autogenerated", gs "do not edit", gs "auto-generated",
   gs "generated by webpack", gs "generated by rollup", gs "generated by parcel",
   gs "compiled by babel", gs "this is a generated file",
   gs "/* eslint-disable */", gs "/* tslint:disable */"]

/-- Test framework call and import signatures. -/
def testFrameworkPatterns : List GoStr :=
  [gs "jest-runtime", gs "jest.fn()", gs "expect.extend", gs "__jest",
   gs "describe(", gs "test(", gs "it(", gs "expect(", gs "beforeEach(",
   gs "afterEach(", gs "jasmine.createSpy", gs "jasmine.clock", gs "jest/build/",
   gs "mocha.setup", gs "chai.expect", gs "chai.assert", gs "should.js",
   gs "jasmine.getEnv()", gs "jasmine.DEFAULT_TIMEOUT_INTERVAL",
   gs "cypress/", gs "cy.visit(", gs "cy.get(", gs "cy.click(",
   gs "@testing-library/", gs "render(", gs "screen.getBy",
   gs "QUnit.test", gs "QUnit.module", gs "karma.conf", gs "__karma__"]

/-- System-generated content patterns for inline scripts. -/
def systemPatterns : List GoStr :=
  [gs "console.log", gs "console.warn", gs "console.error",
   gs "window.chrome", gs "window.__REACT_DEVTOOLS",
   gs "window.__VUE_DEVTOOLS", gs "window.angular",
   gs "performance.mark", gs "performance.measure",
   gs "navigation.timing", gs "window.performance",
   gs "webdriver", gs "phantom", gs "selenium", gs "puppeteer",
   gs "adblock", gs "ublock", gs "extension"]

/-- Custom include or exclude pattern loop: some pattern matches the URL or
the source case-insensitively. -/
def anyPatternMatches (patterns : List GoStr) (url source : GoStr) : Bool :=
  patterns.any fun pattern =>
    goContains (goToLower url) (goToLower pattern) ||
    goContains (goToLower source) (goToLower pattern)

/-- Model of isApplicationScript from browser_test.go (the full rule chain).
The Go function is a sequence of early returns; it is modeled as the same
chain of conditionals, in the same order, with the same attributed reasons.
The float comparison of the high-density rule is modeled exactly over Rat. -/
def isApplicationScript (scriptCoverage : ScriptCoverage) (source : GoStr)
    (options : CoverageFilterOptions) : Bool × GoStr :=
  if anyPatternMatches options.customIncludePatterns scriptCoverage.url source then
    (true, gs "custom_include")
  else if goStartsWith scriptCoverage.url (gs "inline-script-") then
    (false, gs "inline_script_blocked")
  else if options.excludeEmptyURLs && scriptCoverage.url.isEmpty then
    (false, gs "empty_url")
  else if options.excludeBrowserExt &&
      (goContains scriptCoverage.url (gs "chrome-extension://") ||
       goContains scriptCoverage.url (gs "moz-extension://") ||
       goContains scriptCoverage.url (gs "safari-extension://")) then
    (false, gs "browser_extension")
  else if options.excludeDevTools &&
      devToolsPatterns.any (fun pattern =>
        goContains (goToLower source) (goToLower pattern)) then
    (false, gs "devtools_framework")
  else if ((goTrimSpace source).length : Int) < options.minScriptSize then
    (false, gs "too_small")
  else if browserInternalPatterns.any (fun pattern =>
      goTrimSpace source == pattern || goTrimSpace source == pattern ++ gs ";") then
    (false, gs "browser_internal")
  else if options.excludeFrameworkTools &&
      frameworkToolPatterns.any (fun pattern =>
        goContains (goToLower source) (goToLower pattern) ||
        goContains (goToLower scriptCoverage.url) (goToLower pattern)) then
    (false, gs "framework_tools")
  else if options.excludeCDNLibraries &&
      cdnPatterns.any (fun pattern =>
        goContains (goToLower scriptCoverage.url) pattern) then
    (false, gs "cdn_library")
  else if options.excludeMinifiedCode &&
      (goContains (goToLower scriptCoverage.url) (gs ".min.") ||
       goContains (goToLower scriptCoverage.url) (gs "-min.") ||
       goContains (goToLower scriptCoverage.url) (gs "_min.") ||
       goContains (goToLower scriptCoverage.url) (gs "/min/")) then
    (false, gs "minified_code")
  else if options.excludeMinifiedCode &&
      generatedCodeMarkers.any (fun marker =>
        goContains (goToLower source) (goToLower marker)) then
    (false, gs "generated_code")
  else if options.excludeMinifiedCode &&
      (let lines := goSplitLines source
       (lines.take (min 5 lines.length)).any fun line =>
         let trimmed := goTrimSpace line
         decide (trimmed.length > 200) && !(goContains trimmed (gs " ")) &&
           !(goStartsWith trimmed (gs "//"))) then
    (false, gs "minified_heuristic")
  else if options.excludeTestFrameworks &&
      testFrameworkPatterns.any (fun pattern =>
        goContains (goToLower source) (goToLower pattern) ||
        goContains (goToLower scriptCoverage.url) (goToLower pattern)) then
    (false, gs "test_framework")
  else if options.excludeHighDensityInlineScripts &&
      (goStartsWith scriptCoverage.url (gs "inline-script-") ||
       scriptCoverage.url.isEmpty ||
       goContains (goToLower scriptCoverage.url) (gs "inline")) &&
      (let lines := goSplitLines source
       let nonEmptyLines := lines.countP fun line => !(goTrimSpace line).isEmpty
       decide (nonEmptyLines > 0) &&
         decide ((countJavaScriptStatements source : Rat) / (nonEmptyLines : Rat) >
           (options.maxStatementsPerLine : Rat))) then
    (false, gs "high_density_inline")
  else if options.excludeInlineSystemScripts &&
      (goStartsWith scriptCoverage.url (gs "inline-script-") ||
       scriptCoverage.url.isEmpty) &&
      (systemPatterns.any (fun pattern =>
         goContains (goToLower source) (goToLower pattern)) ||
       isRepetitiveContent source) then
    (false, gs "inline_system_script")
  else if anyPatternMatches options.customExcludePatterns scriptCoverage.url source then
    (false, gs "custom_exclude")
  else
    (true, gs "application_script")

/-- DevTools signature list of the shorter coverage_templates.go variant. -/
def devToolsPatternsTpl : List GoStr :=
  [gs "functions.selectable", gs "functions.element", gs "f.toString",
   gs "__coverage__", gs "webdriver", gs "puppeteer", gs "playwright", gs "rod"]

/-- Model of the isApplicationScript variant in coverage_templates.go: the
same first rules (custom include, inline sentinel, empty URL, browser
extension, devtools, minimum size), then inclusion. -/
def isApplicationScriptTpl (scriptCoverage : ScriptCoverage) (source : GoStr)
    (options : CoverageFilterOptions) : Bool × GoStr :=
  if anyPatternMatches options.customIncludePatterns scriptCoverage.url source then
    (true, gs "custom_include")
  else if goStartsWith scriptCoverage.url (gs "inline-script-") then
    (false, gs "inline_script_blocked")
  else if options.excludeEmptyURLs && scriptCoverage.url.isEmpty then
    (false, gs "empty_url")
  else if options.excludeBrowserExt &&
      (goContains scriptCoverage.url (gs "chrome-extension://") ||
       goContains scriptCoverage.url (gs "moz-extension://") ||
       goContains scriptCoverage.url (gs "safari-extension://")) then
    (false, gs "browser_extension")
  else if options.excludeDevTools &&
      devToolsPatternsTpl.any (fun pattern =>
        goContains (goToLower source) (goToLower pattern)) then
    (false, gs "devtools_framework")
  else if ((goTrimSpace source).length : Int) < options.minScriptSize then
    (false, gs "too_small")
  else
    (true, gs "application_script")

/-- Model of CoverageStat (Total, Covered, Skipped Go ints; Pct float64
modeled in Rat). -/
structure CoverageStat where
  total : Int
  covered : Int
  skipped : Int
  pct : Rat
deriving DecidableEq

/-- Zero value of CoverageStat (Go zero value). -/
def zeroStat : CoverageStat := ⟨0, 0, 0, 0⟩

/-- Model of CoverageMetrics (Statements, Branches, Functions, Lines). -/
structure CoverageMetrics where
  statements : CoverageStat
  branches : CoverageStat
  functions : CoverageStat
  lines : CoverageStat
deriving DecidableEq

/-- Zero value of CoverageMetrics (Go zero value). -/
def zeroMetrics : CoverageMetrics := ⟨zeroStat, zeroStat, zeroStat, zeroStat⟩

/-- Model of calculatePct: zero denominator yields exactly 0, otherwise the
percentage covered/total*100 (float64 division modeled in Rat). -/
def calculatePct (covered total : Int) : Rat :=
  if total = 0 then 0 else (covered : Rat) / (total : Rat) * 100

/-- List of consecutive integers from `a` (inclusive) to `b` (exclusive). -/
def intsFrom (a b : Int) : List Int :=
  (List.range (b - a).toNat).map fun (k : Nat) => a + (k : Int)

/-- The exact sequence of indices the bitmap loop of calculateCoverageMetrics
writes for one range: Go runs i from StartOffset while i less than EndOffset
and i less than sourceLen, and only when Count is positive.  The loop bounds
clamp the end of the range but not a negative start. -/
def rangeWriteIndices (sourceLen : Int) (r : CoverageRange) : List Int :=
  if r.count > 0 then intsFrom r.startOffset (min r.endOffset sourceLen) else []

/-- One bitmap write coverage[i] = true.  A negative index makes the Go
program panic; the model leaves the bitmap unchanged there, and the panic
behaviour is captured separately through `rangeWriteIndices` (claim C2). -/
def setCovered (coverage : List Bool) (i : Int) : List Bool :=
  if 0 ≤ i then coverage.set i.toNat true else coverage

/-- The coverage bitmap built by calculateCoverageMetrics: a bool per source
byte, written range by range in input order. -/
def buildCoverage (sourceLen : Nat) (ranges : List CoverageRange) : List Bool :=
  ranges.foldl (fun coverage r => (rangeWriteIndices (sourceLen : Int) r).foldl setCovered coverage)
    (List.replicate sourceLen false)

/-- Byte offset at which line `i` starts: the accumulated lengths of the
previous lines plus one newline each, as recomputed by the Go loop. -/
def lineStartOffset (lines : List GoStr) (i : Nat) : Nat :=
  (((lines.take i).map fun l => l.length + 1)).sum

/-- Executable-line test of the lines loop: the trimmed line is non-empty and
does not start with a single-line comment marker. -/
def isExecutableLine (line : GoStr) : Bool :=
  !(goTrimSpace line).isEmpty && !(goStartsWith (goTrimSpace line) (gs "//"))

/-- Covered-line test of the lines loop: some byte position k with
lineStart ≤ k < lineStart + (trimmed length), k inside the bitmap, is marked
covered.  The Go loop uses the trimmed length for the line end. -/
def lineIsCovered (coverage : List Bool) (lines : List GoStr) (i : Nat) : Bool :=
  let line := goTrimSpace (lines.getD i [])
  let lineStart := lineStartOffset lines i
  (List.range' lineStart line.length).any fun k =>
    decide (k < coverage.length) && coverage.getD k false

/-- Model of calculateCoverageMetrics from browser_test.go (the version in
coverage_templates.go is the same computation with the two line loops fused).
Statement coverage is byte-granular over the bitmap, line coverage counts
executable lines with a covered byte in their span, function coverage counts
function groups having a range with positive count. -/
def calculateCoverageMetrics (source : GoStr) (ranges : List CoverageRange)
    (functions : List FunctionCoverage) : CoverageMetrics :=
  let sourceLen := source.length
  let lines := goSplitLines source
  let coverage := buildCoverage sourceLen ranges
  let coveredChars := coverage.count true
  let linesCovered := (List.range lines.length).countP fun i =>
    isExecutableLine (lines.getD i []) && lineIsCovered coverage lines i
  let executableLines := lines.countP isExecutableLine
  let functionsCovered := functions.countP fun fn => fn.ranges.any fun r => r.count > 0
  { statements :=
      { total := (sourceLen : Int), covered := (coveredChars : Int), skipped := 0,
        pct := calculatePct (coveredChars : Int) (sourceLen : Int) }
    branches := zeroStat
    functions :=
      { total := (functions.length : Int), covered := (functionsCovered : Int), skipped := 0,
        pct := calculatePct (functionsCovered : Int) (functions.length : Int) }
    lines :=
      { total := (executableLines : Int), covered := (linesCovered : Int), skipped := 0,
        pct := calculatePct (linesCovered : Int) (executableLines : Int) } }

/-- Model of FileEntry. -/
structure FileEntry where
  scriptId : GoStr
  url : GoStr
  source : GoStr
  lines : List GoStr
  ranges : List CoverageRange
  metrics : CoverageMetrics
deriving DecidableEq

/-- Model of FilteringStats.  The Go map FilterReasons is modeled by the list
of reason strings in recording order; `FilteringStats.reasonCount` recovers
the per-reason counters.  The timing fields are not modeled (out of scope of
the claims, which compare stats timing aside). -/
structure FilteringStats where
  totalScripts : Int
  applicationScripts : Int
  filteredOut : Int
  reasonsLog : List GoStr
deriving DecidableEq

/-- Counter of one reason in the modeled FilterReasons map. -/
def FilteringStats.reasonCount (s : FilteringStats) (reason : GoStr) : Nat :=
  s.reasonsLog.count reason

/-- Model of the SourceProvider function type: index and script to source
text or an error. -/
def SourceProvider : Type := Nat → ScriptCoverage → Except GoStr GoStr

/-- URL disambiguation of generateJSReportUnified: an empty URL becomes
Script_ plus the script id, a non-empty URL gets #id appended. -/
def scriptDisplayURL (r : ScriptCoverage) : GoStr :=
  if r.url.isEmpty then gs "Script_" ++ r.scriptId else r.url ++ gs "#" ++ r.scriptId

/-- Range collection of generateJSReportUnified: all ranges of all function
groups, in order (the Go nil check on a ranges slice is a no-op for append
and is dropped). -/
def collectAllRanges (functions : List FunctionCoverage) : List CoverageRange :=
  functions.foldl (fun allRanges fn => allRanges ++ fn.ranges) []

/-- Accumulation step of generateJSReportUnified: the six covered and total
counters of statements, functions and lines are added into the running
totals; everything else is untouched. -/
def accumulateTotals (totalMetrics metrics : CoverageMetrics) : CoverageMetrics :=
  { totalMetrics with
    statements :=
      { totalMetrics.statements with
        total := totalMetrics.statements.total + metrics.statements.total
        covered := totalMetrics.statements.covered + metrics.statements.covered }
    functions :=
      { totalMetrics.functions with
        total := totalMetrics.functions.total + metrics.functions.total
        covered := totalMetrics.functions.covered + metrics.functions.covered }
    lines :=
      { totalMetrics.lines with
        total := totalMetrics.lines.total + metrics.lines.total
        covered := totalMetrics.lines.covered + metrics.lines.covered } }

/-- Final percentage computation of generateJSReportUnified: each of the
three accumulated stats gets its percentage recomputed from the folded sums
when the total is positive. -/
def finalizeTotals (m : CoverageMetrics) : CoverageMetrics :=
  { m with
    statements :=
      { m.statements with
        pct := if m.statements.total > 0 then
            (m.statements.covered : Rat) / (m.statements.total : Rat) * 100
          else m.statements.pct }
    functions :=
      { m.functions with
        pct := if m.functions.total > 0 then
            (m.functions.covered : Rat) / (m.functions.total : Rat) * 100
          else m.functions.pct }
    lines :=
      { m.lines with
        pct := if m.lines.total > 0 then
            (m.lines.covered : Rat) / (m.lines.total : Rat) * 100
          else m.lines.pct } }

/-- Loop state of generateJSReportUnified: accumulated entries, running
totals, and the recorded filter reasons. -/
structure PipeState where
  entries : List FileEntry
  totals : CoverageMetrics
  reasons : List GoStr
deriving DecidableEq

/-- Initial loop state. -/
def initPipeState : PipeState := ⟨[], zeroMetrics, []⟩

/-- One iteration of the generateJSReportUnified loop, parametrized by the
classifier so that classifier independence of the source-unavailable path can
be stated (the pipeline itself always uses isApplicationScript).  Mirrors the
loop body: resolve the source, record source_unavailable on error or empty
source, otherwise classify, record the reason, and when included append the
FileEntry and fold its metrics into the totals. -/
def pipeStepWith (cls : ScriptCoverage → GoStr → CoverageFilterOptions → Bool × GoStr)
    (options : CoverageFilterOptions) (sourceProvider : SourceProvider)
    (s : PipeState) (ir : Nat × ScriptCoverage) : PipeState :=
  match sourceProvider ir.1 ir.2 with
  | Except.error _ => { s with reasons := s.reasons ++ [gs "source_unavailable"] }
  | Except.ok scriptSource =>
    if scriptSource.isEmpty then
      { s with reasons := s.reasons ++ [gs "source_unavailable"] }
    else
      let r := ir.2
      let result := cls r scriptSource options
      let reasons := s.reasons ++ [result.2]
      if !result.1 then { s with reasons := reasons }
      else
        let url := if r.url.isEmpty then gs "Script_" ++ r.scriptId
          else r.url ++ gs "#" ++ r.scriptId
        let allRanges := collectAllRanges r.functions
        let lines := goSplitLines scriptSource
        let metrics := calculateCoverageMetrics scriptSource allRanges r.functions
        let entry : FileEntry := ⟨r.scriptId, url, scriptSource, lines, allRanges, metrics⟩
        { entries := s.entries ++ [entry]
          totals := accumulateTotals s.totals metrics
          reasons := reasons }

/-- The generateJSReportUnified loop over the enumerated scripts. -/
def runPipeline (raw : List ScriptCoverage) (sourceProvider : SourceProvider)
    (options : CoverageFilterOptions) : PipeState :=
  raw.enum.foldl (pipeStepWith isApplicationScript options sourceProvider) initPipeState

/-- Insertion of one entry into a URL-sorted entry list. -/
def insertByURL (e : FileEntry) : List FileEntry → List FileEntry
  | [] => [e]
  | x :: xs => if goStrLe e.url x.url then e :: x :: xs else x :: insertByURL e xs

/-- Model of sort.Slice over entries with less given by the URL order:
insertion sort by the non-strict URL order (all URLs are distinct after
disambiguation, so any sort satisfying the order produces this result). -/
def sortEntriesByURL (entries : List FileEntry) : List FileEntry :=
  entries.foldr insertByURL []

/-- The data computed by one run of generateJSReportUnified: the sorted
entries handed to the renderer, the finalized totals, and the filtering
statistics it returns. -/
structure ReportData where
  entries : List FileEntry
  totals : CoverageMetrics
  stats : FilteringStats
deriving DecidableEq

/-- Model of the body of generateJSReportUnified (shared verbatim by the free
function and the CoverageReporter method, which differ only in where the
filter options come from): run the loop, compute the filtering statistics,
finalize the total percentages and sort the entries.  The HTML rendering and
file writing consume this data and are out of scope. -/
def reportPipeline (raw : List ScriptCoverage) (sourceProvider : SourceProvider)
    (options : CoverageFilterOptions) : ReportData :=
  let s := runPipeline raw sourceProvider options
  { entries := sortEntriesByURL s.entries
    totals := finalizeTotals s.totals
    stats :=
      { totalScripts := (raw.length : Int)
        applicationScripts := (s.entries.length : Int)
        filteredOut := (raw.length : Int) - (s.entries.length : Int)
        reasonsLog := s.reasons } }

/-- Model of the free function generateJSReportUnified (browser_test.go and
the unnamed reporter file): hardcodes the application profile and returns the
filtering statistics. -/
def generateJSReportUnified (raw : List ScriptCoverage)
    (sourceProvider : SourceProvider) : FilteringStats :=
  (reportPipeline raw sourceProvider (getFilterOptions (gs "application"))).stats

/-- Model of CoverageReporter. -/
structure CoverageReporter where
  filterOptions : CoverageFilterOptions
  debugMode : Bool
deriving DecidableEq

/-- Model of NewCoverageReporter: application profile, debug off. -/
def NewCoverageReporter : CoverageReporter :=
  ⟨getFilterOptions (gs "application"), false⟩

/-- Model of the CoverageReporter method generateJSReportUnified: the same
loop body with the filter options stored on the reporter. -/
def CoverageReporter.generateJSReportUnified (cr : CoverageReporter)
    (raw : List ScriptCoverage) (sourceProvider : SourceProvider) : FilteringStats :=
  (reportPipeline raw sourceProvider cr.filterOptions).stats

/-- Bounds a CoverageStat is expected to satisfy: covered between 0 and
total, percentage between 0 and 100, and exactly 0 on a zero total. -/
def statWithinBounds (s : CoverageStat) : Prop :=
  0 ≤ s.covered ∧ s.covered ≤ s.total ∧ 0 ≤ s.pct ∧ s.pct ≤ 100 ∧
    (s.total = 0 → s.pct = 0)

/-- Source resolution failure for one script: the provider returns an error
or the empty string (the err check of generateJSReportUnified). -/
def sourceResolutionFailed (sourceProvider : SourceProvider) (i : Nat)
    (r : ScriptCoverage) : Prop :=
  match sourceProvider i r with
  | Except.error _ => True
  | Except.ok src => src = []

/-- The provider seen by a run from which the script at index `n` has been
removed: indices below n unchanged, indices from n shifted by one. -/
def deleteIndexProvider (sourceProvider : SourceProvider) (n : Nat) : SourceProvider :=
  fun j r => if j < n then sourceProvider j r else sourceProvider (j + 1) r

/-- Relation between the loop states of a run without and with one extra
source_unavailable script processed earlier: same entries, same totals, and
the reasons log of the second contains one extra source_unavailable entry. -/
def ReasonShifted (s1 s2 : PipeState) : Prop :=
  s2.entries = s1.entries ∧ s2.totals = s1.totals ∧
    ∃ l1 l2, s1.reasons = l1 ++ l2 ∧ s2.reasons = l1 ++ gs "source_unavailable" :: l2

/-- C10: the CoverageReporter method generateJSReportUnified run on a
reporter built by NewCoverageReporter computes exactly the FilteringStats of
the free function generateJSReportUnified, for every input script list and
source provider (both bodies are the same loop; the reporter stores the
application profile options the free function hardcodes). -/
theorem c10_reporter_matches_free_function :
    ∀ (raw : List ScriptCoverage) (sourceProvider : SourceProvider),
      NewCoverageReporter.generateJSReportUnified raw sourceProvider =
        generateJSReportUnified raw sourceProvider := by
  intro raw sourceProvider
  rfl

/-- C1 (counterexample): a report over the single script with empty URL and
source console.clear() attributes the reason empty_url, not browser_internal:
the empty-URL rule precedes the browser-internal rule and excludeEmptyURLs is
set in the application profile used by the report path. -/
theorem c1_console_clear_empty_url_counterexample :
    (reportPipeline [⟨gs "1", gs "", []⟩]
        (fun _ _ => Except.ok (gs "console.clear()"))
        (getFilterOptions (gs "application"))).stats.reasonsLog = [gs "empty_url"] ∧
    isApplicationScript ⟨gs "1", gs "", []⟩ (gs "console.clear()")
        (getFilterOptions (gs "application")) = (false, gs "empty_url") ∧
    gs "empty_url" ≠ gs "browser_internal" := by
  refine ⟨rfl, rfl, by decide⟩

/-- C1 (amended): for every filtering profile, a script with empty URL and
source console.clear() is excluded with the single attributed reason
empty_url, both by the classifier and in the reasons recorded by a report
run over it. -/
theorem c1_console_clear_excluded_empty_url :
    ∀ (scriptId : GoStr) (functions : List FunctionCoverage) (profile : GoStr),
      isApplicationScript ⟨scriptId, gs "", functions⟩ (gs "console.clear()")
          (getFilterOptions profile) = (false, gs "empty_url") ∧
      (reportPipeline [⟨scriptId, gs "", functions⟩]
          (fun _ _ => Except.ok (gs "console.clear()"))
          (getFilterOptions profile)).stats.reasonsLog = [gs "empty_url"] := by
  intro scriptId functions profile
  unfold getFilterOptions
  split_ifs <;> exact ⟨rfl, rfl⟩

/-- C3: a match of any customIncludePatterns entry against the lowered URL or
lowered source forces inclusion with reason custom_include, in both
isApplicationScript variants, regardless of every other option: the include
check is the first rule of the chain (in particular it precedes the
unconditional inline-script sentinel block). -/
theorem c3_custom_include_overrides_all :
    ∀ (scriptCoverage : ScriptCoverage) (source : GoStr)
      (options : CoverageFilterOptions),
      (∃ pattern ∈ options.customIncludePatterns,
          goContains (goToLower scriptCoverage.url) (goToLower pattern) = true ∨
          goContains (goToLower source) (goToLower pattern) = true) →
      isApplicationScript scriptCoverage source options = (true, gs "custom_include") ∧
      isApplicationScriptTpl scriptCoverage source options = (true, gs "custom_include") := by
  intro scriptCoverage source options h
  have hmatch : anyPatternMatches options.customIncludePatterns scriptCoverage.url source = true := by
    obtain ⟨p, hp, hm⟩ := h
    exact List.any_eq_true.mpr ⟨p, hp, by rcases hm with h1 | h1 <;> simp [h1]⟩
  constructor
  · unfold isApplicationScript
    rw [if_pos hmatch]
  · unfold isApplicationScriptTpl
    rw [if_pos hmatch]

/-- C3 (witness): a script whose URL starts with the inline-script sentinel
is still included as custom_include when an include pattern matches, with
every exclusion toggle on. -/
theorem c3_custom_include_witness :
    isApplicationScript ⟨gs "9", gs "inline-script-1", []⟩ (gs "x")
        { getFilterOptions (gs "application") with customIncludePatterns := [gs "inline"] } =
      (true, gs "custom_include") ∧
    isApplicationScriptTpl ⟨gs "9", gs "inline-script-1", []⟩ (gs "x")
        { getFilterOptions (gs "application") with customIncludePatterns := [gs "inline"] } =
      (true, gs "custom_include") :=
  c3_custom_include_overrides_all ⟨gs "9", gs "inline-script-1", []⟩ (gs "x")
    { getFilterOptions (gs "application") with customIncludePatterns := [gs "inline"] }
    ⟨gs "inline", by decide, Or.inl (by decide)⟩

/-- Helper: a conditional between two results whose reasons both differ from
`v` never yields reason `v`. -/
theorem snd_ite_ne {c : Prop} [Decidable c] {x y : Bool × GoStr} {v : GoStr}
    (hx : x.2 ≠ v) (hy : y.2 ≠ v) : (if c then x else y).2 ≠ v := by
  by_cases h : c
  · rw [if_pos h]; exact hx
  · rw [if_neg h]; exact hy

/-- C7: a script whose trimmed source length equals minScriptSize exactly is
never attributed the reason too_small, in either classifier variant: the
small-script rule uses a strict less-than comparison, and no other rule
returns that reason. -/
theorem c7_boundary_size_not_too_small :
    ∀ (scriptCoverage : ScriptCoverage) (source : GoStr)
      (options : CoverageFilterOptions),
      ((goTrimSpace source).length : Int) = options.minScriptSize →
      (isApplicationScript scriptCoverage source options).2 ≠ gs "too_small" ∧
      (isApplicationScriptTpl scriptCoverage source options).2 ≠ gs "too_small" := by
  intro scriptCoverage source options h
  constructor
  · unfold isApplicationScript
    repeat first
      | rw [if_neg (show ¬(((goTrimSpace source).length : Int) < options.minScriptSize) from by omega)]
      | apply snd_ite_ne
      | decide
  · unfold isApplicationScriptTpl
    repeat first
      | rw [if_neg (show ¬(((goTrimSpace source).length : Int) < options.minScriptSize) from by omega)]
      | apply snd_ite_ne
      | decide

/-- C7 (witness): a 15-character script at the application profile boundary
is not excluded as too_small. -/
theorem c7_boundary_size_witness :
    (isApplicationScript ⟨gs "1", gs "app.js", []⟩ (gs "var abc = 12345")
        (getFilterOptions (gs "application"))).2 ≠ gs "too_small" ∧
    (isApplicationScriptTpl ⟨gs "1", gs "app.js", []⟩ (gs "var abc = 12345")
        (getFilterOptions (gs "application"))).2 ≠ gs "too_small" :=
  c7_boundary_size_not_too_small ⟨gs "1", gs "app.js", []⟩ (gs "var abc = 12345")
    (getFilterOptions (gs "application")) (by decide)

/-- C2 (counterexample): the bitmap loop of calculateCoverageMetrics does not
clamp a negative start offset: for source length 1 and the range with start
-1, end 1, count 1 the loop writes index -1, which is outside [0, 1) (an
out-of-range write that panics in Go), and the write sequence differs from
the clamped interval claimed. -/
theorem c2_negative_start_counterexample :
    ((-1 : Int) ∈ rangeWriteIndices 1 ⟨-1, 1, 1⟩) ∧
    ¬ (∀ i ∈ rangeWriteIndices 1 ⟨-1, 1, 1⟩, 0 ≤ i ∧ i < 1) ∧
    rangeWriteIndices 1 ⟨-1, 1, 1⟩ ≠ intsFrom (max 0 (-1)) (min 1 1) := by
  decide

/-- C2 (amended): the bitmap loop writes exactly the indices from the start
offset up to the end offset clamped by the source length, provided the count
is positive; hence for every range with a non-negative start offset every
write stays inside [0, sourceLength) (no out-of-range access), and inverted
ranges write nothing.  Negative start offsets are not clamped. -/
theorem c2_bitmap_writes_clamped :
    (∀ (sourceLen : Int) (r : CoverageRange) (i : Int),
        i ∈ rangeWriteIndices sourceLen r ↔
          r.count > 0 ∧ r.startOffset ≤ i ∧ i < min r.endOffset sourceLen) ∧
    (∀ (sourceLen : Int) (r : CoverageRange) (i : Int),
        0 ≤ r.startOffset → i ∈ rangeWriteIndices sourceLen r →
        0 ≤ i ∧ i < sourceLen) ∧
    (∀ (sourceLen : Int) (r : CoverageRange),
        r.endOffset ≤ r.startOffset → rangeWriteIndices sourceLen r = []) := by
  have hmem : ∀ (a b i : Int), i ∈ intsFrom a b ↔ a ≤ i ∧ i < b := by
    intro a b i
    unfold intsFrom
    simp only [List.mem_map, List.mem_range]
    constructor
    · rintro ⟨k, hk, rfl⟩
      omega
    · rintro ⟨h1, h2⟩
      exact ⟨(i - a).toNat, by omega, by omega⟩
  refine ⟨?_, ?_, ?_⟩
  · intro sourceLen r i
    unfold rangeWriteIndices
    split_ifs with hc
    · rw [hmem]
      tauto
    · simp only [List.not_mem_nil, false_iff]
      tauto
  · intro sourceLen r i hs hi
    unfold rangeWriteIndices at hi
    split_ifs at hi with hc
    · rw [hmem] at hi
      omega
    · simp at hi
  · intro sourceLen r h
    unfold rangeWriteIndices
    split_ifs with hc
    · unfold intsFrom
      rw [Int.toNat_of_nonpos (by omega)]
      rfl
    · rfl

/-- C2 (witness): a well-formed range over a length-10 source writes only
indices inside [0, 10). -/
theorem c2_bitmap_writes_witness : 0 ≤ (5 : Int) ∧ (5 : Int) < 10 :=
  c2_bitmap_writes_clamped.2.1 10 ⟨0, 10, 1⟩ 5 (by decide) (by decide)

/-- Helper: folding bitmap writes preserves the bitmap length. -/
theorem foldl_setCovered_length (l : List Int) :
    ∀ (cov : List Bool), (l.foldl setCovered cov).length = cov.length := by
  induction l with
  | nil => intro cov; rfl
  | cons j t ih =>
    intro cov
    rw [List.foldl_cons, ih]
    unfold setCovered
    split <;> simp

/-- Helper: the coverage bitmap has one entry per source byte. -/
theorem buildCoverage_length (sourceLen : Nat) (ranges : List CoverageRange) :
    (buildCoverage sourceLen ranges).length = sourceLen := by
  unfold buildCoverage
  suffices h : ∀ (rs : List CoverageRange) (cov : List Bool),
      (rs.foldl (fun coverage r =>
        (rangeWriteIndices (sourceLen : Int) r).foldl setCovered coverage) cov).length =
        cov.length by
    rw [h]; exact List.length_replicate _ _
  intro rs
  induction rs with
  | nil => intro cov; rfl
  | cons r t ih =>
    intro cov
    rw [List.foldl_cons, ih, foldl_setCovered_length]

/-- Helper: counting indexed positions that satisfy a predicate of the
element equals counting the elements directly. -/
theorem countP_range_getD (l : List GoStr) (p : GoStr → Bool) :
    (List.range l.length).countP (fun i => p (l.getD i [])) = l.countP p := by
  induction l with
  | nil => rfl
  | cons a t ih =>
    rw [List.length_cons, List.range_succ_eq_map, List.countP_cons, List.countP_map]
    simp only [Function.comp_def, List.getD_cons_succ, List.getD_cons_zero]
    rw [ih, List.countP_cons]

/-- C4: calculatePct returns covered/total*100 for positive totals and
exactly 0 for a zero total, and under 0 ≤ covered ≤ total the result always
lies in [0, 100] (the Rat model of the float64 computation is exact, hence
finite and never NaN); moreover every CoverageStat produced by
calculateCoverageMetrics satisfies these bounds. -/
theorem c4_percentages_bounded :
    (∀ covered total : Int, 0 ≤ covered → covered ≤ total →
        0 ≤ calculatePct covered total ∧ calculatePct covered total ≤ 100 ∧
        (total = 0 → calculatePct covered total = 0) ∧
        (0 < total → calculatePct covered total = (covered : Rat) / (total : Rat) * 100)) ∧
    (∀ (source : GoStr) (ranges : List CoverageRange) (functions : List FunctionCoverage),
        statWithinBounds (calculateCoverageMetrics source ranges functions).statements ∧
        statWithinBounds (calculateCoverageMetrics source ranges functions).functions ∧
        statWithinBounds (calculateCoverageMetrics source ranges functions).lines) := by
  have hpct : ∀ covered total : Int, 0 ≤ covered → covered ≤ total →
      0 ≤ calculatePct covered total ∧ calculatePct covered total ≤ 100 ∧
      (total = 0 → calculatePct covered total = 0) ∧
      (0 < total → calculatePct covered total = (covered : Rat) / (total : Rat) * 100) := by
    intro c t h0 h1
    unfold calculatePct
    by_cases ht : t = 0
    · subst ht; simp
    · rw [if_neg ht]
      have htpos : (0 : Int) < t := by omega
      have htq : (0 : Rat) < (t : Rat) := by exact_mod_cast htpos
      have hcq : (0 : Rat) ≤ (c : Rat) := by exact_mod_cast h0
      have hle : (c : Rat) ≤ (t : Rat) := by exact_mod_cast h1
      have hdiv : (c : Rat) / (t : Rat) ≤ 1 := (div_le_one htq).mpr hle
      refine ⟨by positivity, by nlinarith, fun h => absurd h ht, fun _ => rfl⟩
  refine ⟨hpct, ?_⟩
  intro source ranges functions
  have hchars : (buildCoverage source.length ranges).count true ≤ source.length := by
    calc (buildCoverage source.length ranges).count true
        ≤ (buildCoverage source.length ranges).length := List.count_le_length _ _
      _ = source.length := buildCoverage_length _ _
  have hfn : (functions.countP fun fn => fn.ranges.any fun r => r.count > 0) ≤
      functions.length := List.countP_le_length _
  have hlines : ((List.range (goSplitLines source).length).countP fun i =>
        isExecutableLine ((goSplitLines source).getD i []) &&
          lineIsCovered (buildCoverage source.length ranges) (goSplitLines source) i) ≤
      (goSplitLines source).countP isExecutableLine := by
    calc ((List.range (goSplitLines source).length).countP fun i =>
            isExecutableLine ((goSplitLines source).getD i []) &&
              lineIsCovered (buildCoverage source.length ranges) (goSplitLines source) i)
        ≤ ((List.range (goSplitLines source).length).countP fun i =>
            isExecutableLine ((goSplitLines source).getD i [])) := by
          refine List.countP_mono_left ?_
          intro x _ hx
          exact (Bool.and_eq_true _ _).mp hx |>.1
      _ = (goSplitLines source).countP isExecutableLine := countP_range_getD _ _
  simp only [calculateCoverageMetrics, statWithinBounds]
  refine ⟨⟨?_, ?_, ?_, ?_, ?_⟩, ⟨?_, ?_, ?_, ?_, ?_⟩, ⟨?_, ?_, ?_, ?_, ?_⟩⟩
  · positivity
  · exact_mod_cast hchars
  · exact (hpct _ _ (by positivity) (by exact_mod_cast hchars)).1
  · exact (hpct _ _ (by positivity) (by exact_mod_cast hchars)).2.1
  · exact (hpct _ _ (by positivity) (by exact_mod_cast hchars)).2.2.1
  · positivity
  · exact_mod_cast hfn
  · exact (hpct _ _ (by positivity) (by exact_mod_cast hfn)).1
  · exact (hpct _ _ (by positivity) (by exact_mod_cast hfn)).2.1
  · exact (hpct _ _ (by positivity) (by exact_mod_cast hfn)).2.2.1
  · positivity
  · exact_mod_cast hlines
  · exact (hpct _ _ (by positivity) (by exact_mod_cast hlines)).1
  · exact (hpct _ _ (by positivity) (by exact_mod_cast hlines)).2.1
  · exact (hpct _ _ (by positivity) (by exact_mod_cast hlines)).2.2.1

/-- C4 (witness): the bounds instantiated at covered 3 of total 4. -/
theorem c4_percentages_witness :
    0 ≤ calculatePct 3 4 ∧ calculatePct 3 4 ≤ 100 ∧
    ((4 : Int) = 0 → calculatePct 3 4 = 0) ∧
    ((0 : Int) < 4 → calculatePct 3 4 = (3 : Rat) / (4 : Rat) * 100) :=
  c4_percentages_bounded.1 3 4 (by decide) (by decide)

/-- Helper: two bitmaps of equal length with equal lookups are equal. -/
theorem list_bool_ext (a b : List Bool) (hlen : a.length = b.length)
    (h : ∀ n, a.getD n false = b.getD n false) : a = b := by
  apply List.ext_getElem?
  intro n
  by_cases hn : n < a.length
  · have ha := List.getElem?_eq_getElem hn
    have hb := List.getElem?_eq_getElem (hlen ▸ hn)
    have hd := h n
    rw [List.getD_eq_getElem?_getD, List.getD_eq_getElem?_getD, ha, hb] at hd
    simp only [Option.getD_some] at hd
    rw [ha, hb, hd]
  · rw [List.getElem?_eq_none (by omega), List.getElem?_eq_none (by omega)]

/-- Helper: membership in the write-index list of one range. -/
theorem mem_rangeWriteIndices (sourceLen : Int) (r : CoverageRange) (i : Int) :
    i ∈ rangeWriteIndices sourceLen r ↔
      r.count > 0 ∧ r.startOffset ≤ i ∧ i < min r.endOffset sourceLen := by
  unfold rangeWriteIndices
  split_ifs with hc
  · unfold intsFrom
    simp only [List.mem_map, List.mem_range]
    constructor
    · rintro ⟨k, hk, rfl⟩
      refine ⟨hc, by omega, by omega⟩
    · rintro ⟨-, h1, h2⟩
      exact ⟨(i - r.startOffset).toNat, by omega, by omega⟩
  · simp only [List.not_mem_nil, false_iff]
    tauto

/-- Helper: the lookup after one bitmap write. -/
theorem getD_setCovered (cov : List Bool) (j : Int) (n : Nat) :
    (setCovered cov j).getD n false =
      (cov.getD n false ||
        (decide (0 ≤ j) && decide (j.toNat = n) && decide (n < cov.length))) := by
  unfold setCovered
  split_ifs with h0
  · simp only [List.getD_eq_getElem?_getD, List.getElem?_set]
    by_cases he : j.toNat = n
    · rw [if_pos he]
      by_cases hl : j.toNat < cov.length
      · rw [if_pos hl]
        simp [h0, he, he ▸ hl]
      · rw [if_neg hl]
        have hn : ¬ n < cov.length := he ▸ hl
        rw [List.getElem?_eq_none (by omega)]
        simp [hn]
    · rw [if_neg he]
      simp [he]
  · simp [h0]

/-- Helper: the lookup after a sequence of bitmap writes. -/
theorem getD_foldl_setCovered (l : List Int) :
    ∀ (cov : List Bool) (n : Nat),
      (l.foldl setCovered cov).getD n false =
        (cov.getD n false ||
          l.any fun j => decide (0 ≤ j) && decide (j.toNat = n) && decide (n < cov.length)) := by
  induction l with
  | nil => intro cov n; simp
  | cons j t ih =>
    intro cov n
    rw [List.foldl_cons, ih, getD_setCovered]
    have hlen : (setCovered cov j).length = cov.length := by
      unfold setCovered; split <;> simp
    rw [hlen, List.any_cons, Bool.or_assoc]

/-- Helper: marking the same index list twice has no extra effect. -/
theorem foldl_setCovered_idem (l : List Int) (cov : List Bool) :
    l.foldl setCovered (l.foldl setCovered cov) = l.foldl setCovered cov := by
  apply list_bool_ext
  · rw [foldl_setCovered_length, foldl_setCovered_length]
  · intro n
    rw [getD_foldl_setCovered, getD_foldl_setCovered, foldl_setCovered_length,
      Bool.or_assoc, Bool.or_self]

/-- Helper: the lookup in the bitmap after folding all ranges. -/
theorem getD_buildCoverage_fold (sourceLen : Int) :
    ∀ (rs : List CoverageRange) (cov : List Bool) (n : Nat),
      ((rs.foldl (fun coverage r =>
          (rangeWriteIndices sourceLen r).foldl setCovered coverage) cov).getD n false) =
        (cov.getD n false ||
          rs.any fun r => (rangeWriteIndices sourceLen r).any fun j =>
            decide (0 ≤ j) && decide (j.toNat = n) && decide (n < cov.length)) := by
  intro rs
  induction rs with
  | nil => intro cov n; simp
  | cons r t ih =>
    intro cov n
    rw [List.foldl_cons, ih, getD_foldl_setCovered, foldl_setCovered_length,
      List.any_cons, Bool.or_assoc]

/-- C5: the coverage bitmap is the union of the ranges with positive count
(lookup characterization), duplicated ranges have no extra effect, ranges
with zero count or inverted bounds contribute nothing, and on the concrete
ranges (0,10,1), (5,15,1) over a 20-byte source exactly bytes 0 to 14 are
covered, giving statement coverage 15 of 20. -/
theorem c5_bitmap_union_idempotent :
    (∀ (sourceLen : Nat) (ranges : List CoverageRange) (i : Nat), i < sourceLen →
        ((buildCoverage sourceLen ranges).getD i false = true ↔
          ∃ r ∈ ranges, r.count > 0 ∧ r.startOffset ≤ (i : Int) ∧ (i : Int) < r.endOffset)) ∧
    (∀ (sourceLen : Nat) (r : CoverageRange) (ranges : List CoverageRange),
        buildCoverage sourceLen (r :: r :: ranges) = buildCoverage sourceLen (r :: ranges)) ∧
    (∀ (sourceLen : Nat) (r : CoverageRange) (ranges : List CoverageRange),
        r.count = 0 → buildCoverage sourceLen (r :: ranges) = buildCoverage sourceLen ranges) ∧
    (∀ (sourceLen : Nat) (r : CoverageRange) (ranges : List CoverageRange),
        r.endOffset ≤ r.startOffset →
        buildCoverage sourceLen (r :: ranges) = buildCoverage sourceLen ranges) ∧
    (buildCoverage 20 [⟨0, 10, 1⟩, ⟨5, 15, 1⟩] =
        List.replicate 15 true ++ List.replicate 5 false ∧
      (calculateCoverageMetrics (gs "abcdefghijklmnopqrst")
          [⟨0, 10, 1⟩, ⟨5, 15, 1⟩] []).statements.covered = 15 ∧
      (calculateCoverageMetrics (gs "abcdefghijklmnopqrst")
          [⟨0, 10, 1⟩, ⟨5, 15, 1⟩] []).statements.total = 20) := by
  refine ⟨?_, ?_, ?_, ?_, by decide, by decide, by decide⟩
  · intro sourceLen ranges i hi
    unfold buildCoverage
    rw [getD_buildCoverage_fold]
    have hrep : (List.replicate sourceLen false).getD i false = false := by
      rw [List.getD_eq_getElem?_getD, List.getElem?_replicate]
      split <;> rfl
    rw [hrep, Bool.false_or, List.length_replicate]
    simp only [List.any_eq_true, decide_eq_true_eq, Bool.and_eq_true]
    constructor
    · rintro ⟨r, hr, j, hj, ⟨hj0, hjn⟩, -⟩
      rw [mem_rangeWriteIndices] at hj
      refine ⟨r, hr, hj.1, by omega, by omega⟩
    · rintro ⟨r, hr, hc, hs, he⟩
      refine ⟨r, hr, (i : Int), ?_, ⟨by omega, by omega⟩, by omega⟩
      rw [mem_rangeWriteIndices]
      refine ⟨hc, hs, by omega⟩
  · intro sourceLen r ranges
    unfold buildCoverage
    rw [List.foldl_cons, List.foldl_cons, List.foldl_cons, foldl_setCovered_idem]
  · intro sourceLen r ranges h
    have hnil : rangeWriteIndices (sourceLen : Int) r = [] := by
      unfold rangeWriteIndices
      rw [if_neg (by omega)]
    unfold buildCoverage
    rw [List.foldl_cons, hnil, List.foldl_nil]
  · intro sourceLen r ranges h
    have hnil : rangeWriteIndices (sourceLen : Int) r = [] := by
      unfold rangeWriteIndices
      split_ifs with hc
      · unfold intsFrom
        rw [Int.toNat_of_nonpos (by omega)]
        rfl
      · rfl
    unfold buildCoverage
    rw [List.foldl_cons, hnil, List.foldl_nil]

/-- C5 (witness): the union characterization at byte 1 of a 3-byte source
with one positive range, and the no-contribution law for a zero-count
range. -/
theorem c5_bitmap_union_witness :
    ((buildCoverage 3 [⟨0, 2, 1⟩]).getD 1 false = true ↔
      ∃ r ∈ [(⟨0, 2, 1⟩ : CoverageRange)],
        r.count > 0 ∧ r.startOffset ≤ (1 : Int) ∧ (1 : Int) < r.endOffset) ∧
    buildCoverage 3 [⟨0, 5, 0⟩] = buildCoverage 3 [] :=
  ⟨c5_bitmap_union_idempotent.1 3 [⟨0, 2, 1⟩] 1 (by decide),
   c5_bitmap_union_idempotent.2.2.1 3 ⟨0, 5, 0⟩ [] (by decide)⟩

/-- Helper: the totals fold is componentwise summation of the six counters. -/
theorem foldl_accumulateTotals_eq (l : List CoverageMetrics) :
    ∀ (acc : CoverageMetrics),
      l.foldl accumulateTotals acc =
        { acc with
          statements := { acc.statements with
            total := acc.statements.total + (l.map fun m => m.statements.total).sum
            covered := acc.statements.covered + (l.map fun m => m.statements.covered).sum }
          functions := { acc.functions with
            total := acc.functions.total + (l.map fun m => m.functions.total).sum
            covered := acc.functions.covered + (l.map fun m => m.functions.covered).sum }
          lines := { acc.lines with
            total := acc.lines.total + (l.map fun m => m.lines.total).sum
            covered := acc.lines.covered + (l.map fun m => m.lines.covered).sum } } := by
  induction l with
  | nil => intro acc; simp
  | cons m t ih =>
    intro acc
    rw [List.foldl_cons, ih]
    simp [accumulateTotals, add_assoc]

/-- C9: folding per-file covered and total counters into the aggregate by
summation and recomputing the aggregate percentages from the folded sums at
the end gives the same total CoverageMetrics for every permutation of the
file processing order. -/
theorem c9_aggregation_order_independent :
    ∀ (l₁ l₂ : List CoverageMetrics), l₁.Perm l₂ →
      finalizeTotals (l₁.foldl accumulateTotals zeroMetrics) =
        finalizeTotals (l₂.foldl accumulateTotals zeroMetrics) := by
  intro l1 l2 hp
  rw [foldl_accumulateTotals_eq, foldl_accumulateTotals_eq,
    (hp.map fun m => m.statements.total).sum_eq,
    (hp.map fun m => m.statements.covered).sum_eq,
    (hp.map fun m => m.functions.total).sum_eq,
    (hp.map fun m => m.functions.covered).sum_eq,
    (hp.map fun m => m.lines.total).sum_eq,
    (hp.map fun m => m.lines.covered).sum_eq]

/-- C9 (witness): two concrete per-file metrics aggregated in both orders. -/
theorem c9_aggregation_witness :
    finalizeTotals ([(⟨⟨10, 5, 0, 0⟩, zeroStat, ⟨2, 1, 0, 0⟩, ⟨4, 2, 0, 0⟩⟩ : CoverageMetrics),
        ⟨⟨6, 3, 0, 0⟩, zeroStat, ⟨1, 0, 0, 0⟩, ⟨3, 3, 0, 0⟩⟩].foldl accumulateTotals zeroMetrics) =
      finalizeTotals ([(⟨⟨6, 3, 0, 0⟩, zeroStat, ⟨1, 0, 0, 0⟩, ⟨3, 3, 0, 0⟩⟩ : CoverageMetrics),
        ⟨⟨10, 5, 0, 0⟩, zeroStat, ⟨2, 1, 0, 0⟩, ⟨4, 2, 0, 0⟩⟩].foldl accumulateTotals zeroMetrics) :=
  c9_aggregation_order_independent _ _
    (List.Perm.swap (⟨⟨6, 3, 0, 0⟩, zeroStat, ⟨1, 0, 0, 0⟩, ⟨3, 3, 0, 0⟩⟩ : CoverageMetrics)
      (⟨⟨10, 5, 0, 0⟩, zeroStat, ⟨2, 1, 0, 0⟩, ⟨4, 2, 0, 0⟩⟩ : CoverageMetrics) [])

/-- Helper: membership after inserting into a URL-sorted list. -/
theorem mem_insertByURL (a e : FileEntry) :
    ∀ (l : List FileEntry), a ∈ insertByURL e l ↔ a = e ∨ a ∈ l := by
  intro l
  induction l with
  | nil => simp [insertByURL]
  | cons x xs ih =>
    unfold insertByURL
    split_ifs with h
    · simp [List.mem_cons]
    · simp only [List.mem_cons, ih]
      tauto

/-- Helper: sorting the entries by URL preserves membership. -/
theorem mem_sortEntriesByURL (a : FileEntry) :
    ∀ (l : List FileEntry), a ∈ sortEntriesByURL l ↔ a ∈ l := by
  intro l
  induction l with
  | nil => simp [sortEntriesByURL]
  | cons x xs ih =>
    unfold sortEntriesByURL
    rw [List.foldr_cons, mem_insertByURL]
    unfold sortEntriesByURL at ih
    rw [ih, List.mem_cons]

/-- Helper: an entry appended by one loop iteration either was already
present or carries the script id and disambiguated display URL of the
processed script. -/
theorem pipeStep_entry_mem (cls : ScriptCoverage → GoStr → CoverageFilterOptions → Bool × GoStr)
    (options : CoverageFilterOptions) (sourceProvider : SourceProvider)
    (s : PipeState) (ir : Nat × ScriptCoverage) (e : FileEntry)
    (h : e ∈ (pipeStepWith cls options sourceProvider s ir).entries) :
    e ∈ s.entries ∨ (e.scriptId = ir.2.scriptId ∧ e.url = scriptDisplayURL ir.2) := by
  unfold pipeStepWith at h
  cases hp : sourceProvider ir.1 ir.2 with
  | error err =>
    rw [hp] at h
    exact Or.inl h
  | ok src =>
    rw [hp] at h
    dsimp only at h
    split_ifs at h with h1 h2 h3
    · exact Or.inl h
    · exact Or.inl h
    · rw [List.mem_append] at h
      rcases h with h | h
      · exact Or.inl h
      · rw [List.mem_singleton] at h
        subst h
        refine Or.inr ⟨rfl, ?_⟩
        unfold scriptDisplayURL
        rw [if_pos h3]
    · rw [List.mem_append] at h
      rcases h with h | h
      · exact Or.inl h
      · rw [List.mem_singleton] at h
        subst h
        refine Or.inr ⟨rfl, ?_⟩
        unfold scriptDisplayURL
        rw [if_neg h3]

/-- Helper: every entry produced by the loop comes from one enumerated
script and carries its display URL. -/
theorem foldl_entry_mem (cls : ScriptCoverage → GoStr → CoverageFilterOptions → Bool × GoStr)
    (options : CoverageFilterOptions) (sourceProvider : SourceProvider) :
    ∀ (l : List (Nat × ScriptCoverage)) (s : PipeState) (e : FileEntry),
      e ∈ (l.foldl (pipeStepWith cls options sourceProvider) s).entries →
      e ∈ s.entries ∨ ∃ ir ∈ l, e.scriptId = ir.2.scriptId ∧ e.url = scriptDisplayURL ir.2 := by
  intro l
  induction l with
  | nil => intro s e h; exact Or.inl h
  | cons x t ih =>
    intro s e h
    rw [List.foldl_cons] at h
    rcases ih _ _ h with h1 | ⟨ir, hir, hx⟩
    · rcases pipeStep_entry_mem cls options sourceProvider s x e h1 with h2 | h2
      · exact Or.inl h2
      · exact Or.inr ⟨x, List.mem_cons_self x t, h2⟩
    · exact Or.inr ⟨ir, List.mem_cons_of_mem x hir, hx⟩

/-- C6: every file entry of an assembled report carries the display name of
the script it came from (Script_ plus id for an empty URL, URL#id
otherwise); concretely, two included scripts sharing URL app.js with ids 1
and 2 yield exactly the entries app.js#1 and app.js#2, in this ascending
URL order. -/
theorem c6_display_name_disambiguation :
    (∀ (raw : List ScriptCoverage) (sourceProvider : SourceProvider)
        (options : CoverageFilterOptions) (e : FileEntry),
        e ∈ (reportPipeline raw sourceProvider options).entries →
        ∃ r ∈ raw, e.scriptId = r.scriptId ∧
          e.url = (if r.url.isEmpty then gs "Script_" ++ r.scriptId
            else r.url ++ gs "#" ++ r.scriptId)) ∧
    ((reportPipeline
        [⟨gs "1", gs "app.js", [⟨gs "f", [⟨0, 20, 3⟩]⟩]⟩,
         ⟨gs "2", gs "app.js", [⟨gs "g", [⟨0, 10, 0⟩]⟩]⟩]
        (fun _ _ => Except.ok (gs "const answer = 40 + 2; const extra = 1;"))
        (getFilterOptions (gs "application"))).entries.map FileEntry.url =
      [gs "app.js#1", gs "app.js#2"]) ∧
    goStrLt (gs "app.js#1") (gs "app.js#2") = true := by
  refine ⟨?_, by decide, by decide⟩
  intro raw sourceProvider options e he
  unfold reportPipeline at he
  dsimp only at he
  rw [mem_sortEntriesByURL] at he
  unfold runPipeline at he
  rcases foldl_entry_mem _ _ _ _ _ _ he with h1 | ⟨ir, hir, hid, hurl⟩
  · exact absurd h1 (List.not_mem_nil e)
  · obtain ⟨i, r⟩ := ir
    have hir' : (i, r) ∈ List.enumFrom 0 raw := hir
    obtain ⟨-, -, heq⟩ := List.mem_enumFrom hir'
    refine ⟨r, ?_, hid, ?_⟩
    · exact heq ▸ List.getElem_mem _
    · rw [hurl]
      unfold scriptDisplayURL
      rfl

/-- Helper: the first lookup of a non-empty list is one of its members. -/
theorem getD_zero_mem {α : Type} (l : List α) (d : α) (h : l ≠ []) : l.getD 0 d ∈ l := by
  cases l with
  | nil => exact absurd rfl h
  | cons a t => exact List.mem_cons_self a t

/-- C6 (witness): the display-name law applied to the first entry of the
concrete two-script report. -/
theorem c6_display_name_witness :
    ∃ r ∈ [(⟨gs "1", gs "app.js", [⟨gs "f", [⟨0, 20, 3⟩]⟩]⟩ : ScriptCoverage),
        ⟨gs "2", gs "app.js", [⟨gs "g", [⟨0, 10, 0⟩]⟩]⟩],
      ((reportPipeline
          [⟨gs "1", gs "app.js", [⟨gs "f", [⟨0, 20, 3⟩]⟩]⟩,
           ⟨gs "2", gs "app.js", [⟨gs "g", [⟨0, 10, 0⟩]⟩]⟩]
          (fun _ _ => Except.ok (gs "const answer = 40 + 2; const extra = 1;"))
          (getFilterOptions (gs "application"))).entries.getD 0
            ⟨[], [], [], [], [], zeroMetrics⟩).scriptId = r.scriptId ∧
      ((reportPipeline
          [⟨gs "1", gs "app.js", [⟨gs "f", [⟨0, 20, 3⟩]⟩]⟩,
           ⟨gs "2", gs "app.js", [⟨gs "g", [⟨0, 10, 0⟩]⟩]⟩]
          (fun _ _ => Except.ok (gs "const answer = 40 + 2; const extra = 1;"))
          (getFilterOptions (gs "application"))).entries.getD 0
            ⟨[], [], [], [], [], zeroMetrics⟩).url =
        (if r.url.isEmpty then gs "Script_" ++ r.scriptId
          else r.url ++ gs "#" ++ r.scriptId) :=
  c6_display_name_disambiguation.1
    [⟨gs "1", gs "app.js", [⟨gs "f", [⟨0, 20, 3⟩]⟩]⟩,
     ⟨gs "2", gs "app.js", [⟨gs "g", [⟨0, 10, 0⟩]⟩]⟩]
    (fun _ _ => Except.ok (gs "const answer = 40 + 2; const extra = 1;"))
    (getFilterOptions (gs "application"))
    ((reportPipeline
        [⟨gs "1", gs "app.js", [⟨gs "f", [⟨0, 20, 3⟩]⟩]⟩,
         ⟨gs "2", gs "app.js", [⟨gs "g", [⟨0, 10, 0⟩]⟩]⟩]
        (fun _ _ => Except.ok (gs "const answer = 40 + 2; const extra = 1;"))
        (getFilterOptions (gs "application"))).entries.getD 0
          ⟨[], [], [], [], [], zeroMetrics⟩)
    (getD_zero_mem _ _ (by decide))

/-- Helper: one loop iteration depends on the provider only through the
resolved source of the processed script. -/
theorem pipeStepWith_provider_eq (cls : ScriptCoverage → GoStr → CoverageFilterOptions → Bool × GoStr)
    (options : CoverageFilterOptions) (p q : SourceProvider) (s : PipeState)
    (i j : Nat) (r : ScriptCoverage) (h : p i r = q j r) :
    pipeStepWith cls options p s (i, r) = pipeStepWith cls options q s (j, r) := by
  unfold pipeStepWith
  dsimp only
  rw [h]

/-- Helper: a failing source resolution only appends source_unavailable to
the reasons log, for every classifier. -/
theorem pipeStepWith_failed (cls : ScriptCoverage → GoStr → CoverageFilterOptions → Bool × GoStr)
    (options : CoverageFilterOptions) (p : SourceProvider) (i : Nat)
    (bad : ScriptCoverage) (s : PipeState) (h : sourceResolutionFailed p i bad) :
    pipeStepWith cls options p s (i, bad) =
      { s with reasons := s.reasons ++ [gs "source_unavailable"] } := by
  unfold sourceResolutionFailed at h
  unfold pipeStepWith
  dsimp only
  revert h
  cases hp : p i bad with
  | error err => intro h; rfl
  | ok src =>
    intro h
    dsimp only at h
    subst h
    rfl

/-- Helper: one loop iteration preserves the one-extra-reason relation. -/
theorem pipeStepWith_reasonShifted (cls : ScriptCoverage → GoStr → CoverageFilterOptions → Bool × GoStr)
    (options : CoverageFilterOptions) (p : SourceProvider) (s1 s2 : PipeState)
    (x : Nat × ScriptCoverage) (h : ReasonShifted s1 s2) :
    ReasonShifted (pipeStepWith cls options p s1 x) (pipeStepWith cls options p s2 x) := by
  obtain ⟨he, ht, l1, l2, hr1, hr2⟩ := h
  unfold pipeStepWith
  cases hp : p x.1 x.2 with
  | error err =>
    refine ⟨he, ht, l1, l2 ++ [gs "source_unavailable"], ?_, ?_⟩
    · dsimp only; rw [hr1, List.append_assoc]
    · dsimp only; rw [hr2]; simp [List.append_assoc]
  | ok src =>
    dsimp only
    split_ifs with h1 h2 h3
    · refine ⟨he, ht, l1, l2 ++ [gs "source_unavailable"], ?_, ?_⟩
      · dsimp only; rw [hr1, List.append_assoc]
      · dsimp only; rw [hr2]; simp [List.append_assoc]
    · refine ⟨he, ht, l1, l2 ++ [(cls x.2 src options).2], ?_, ?_⟩
      · dsimp only; rw [hr1, List.append_assoc]
      · dsimp only; rw [hr2]; simp [List.append_assoc]
    · refine ⟨?_, ?_, l1, l2 ++ [(cls x.2 src options).2], ?_, ?_⟩
      · dsimp only; rw [he]
      · dsimp only; rw [ht]
      · dsimp only; rw [hr1, List.append_assoc]
      · dsimp only; rw [hr2]; simp [List.append_assoc]
    · refine ⟨?_, ?_, l1, l2 ++ [(cls x.2 src options).2], ?_, ?_⟩
      · dsimp only; rw [he]
      · dsimp only; rw [ht]
      · dsimp only; rw [hr1, List.append_assoc]
      · dsimp only; rw [hr2]; simp [List.append_assoc]

/-- Helper: the whole loop preserves the one-extra-reason relation. -/
theorem foldl_reasonShifted (cls : ScriptCoverage → GoStr → CoverageFilterOptions → Bool × GoStr)
    (options : CoverageFilterOptions) (p : SourceProvider) :
    ∀ (l : List (Nat × ScriptCoverage)) (s1 s2 : PipeState), ReasonShifted s1 s2 →
      ReasonShifted (l.foldl (pipeStepWith cls options p) s1)
        (l.foldl (pipeStepWith cls options p) s2) := by
  intro l
  induction l with
  | nil => intro s1 s2 h; exact h
  | cons x t ih =>
    intro s1 s2 h
    rw [List.foldl_cons, List.foldl_cons]
    exact ih _ _ (pipeStepWith_reasonShifted cls options p s1 s2 x h)

/-- Helper: two providers agreeing on the processed index window produce the
same fold. -/
theorem foldl_enumFrom_provider_congr (cls : ScriptCoverage → GoStr → CoverageFilterOptions → Bool × GoStr)
    (options : CoverageFilterOptions) (p q : SourceProvider) :
    ∀ (l : List ScriptCoverage) (m : Nat) (s : PipeState),
      (∀ k r, m ≤ k → k < m + l.length → p k r = q k r) →
      (List.enumFrom m l).foldl (pipeStepWith cls options p) s =
        (List.enumFrom m l).foldl (pipeStepWith cls options q) s := by
  intro l
  induction l with
  | nil => intro m s h; rfl
  | cons x t ih =>
    intro m s h
    show ((m, x) :: List.enumFrom (m + 1) t).foldl (pipeStepWith cls options p) s =
      ((m, x) :: List.enumFrom (m + 1) t).foldl (pipeStepWith cls options q) s
    rw [List.foldl_cons, List.foldl_cons,
      pipeStepWith_provider_eq cls options p q s m m x
        (h m x le_rfl (by simp only [List.length_cons]; omega))]
    exact ih (m + 1) _ fun k r hk1 hk2 =>
      h k r (by omega) (by simp only [List.length_cons] at hk2 ⊢; omega)

/-- Helper: running the tail under the original provider with indices
shifted by one equals running it under the provider with index n deleted,
for windows at or after n. -/
theorem foldl_enumFrom_shift (cls : ScriptCoverage → GoStr → CoverageFilterOptions → Bool × GoStr)
    (options : CoverageFilterOptions) (p : SourceProvider) (n : Nat) :
    ∀ (l : List ScriptCoverage) (m : Nat) (s : PipeState), n ≤ m →
      (List.enumFrom (m + 1) l).foldl (pipeStepWith cls options p) s =
        (List.enumFrom m l).foldl (pipeStepWith cls options (deleteIndexProvider p n)) s := by
  intro l
  induction l with
  | nil => intro m s h; rfl
  | cons x t ih =>
    intro m s h
    show ((m + 1, x) :: List.enumFrom (m + 2) t).foldl (pipeStepWith cls options p) s =
      ((m, x) :: List.enumFrom (m + 1) t).foldl
        (pipeStepWith cls options (deleteIndexProvider p n)) s
    rw [List.foldl_cons, List.foldl_cons,
      pipeStepWith_provider_eq cls options p (deleteIndexProvider p n) s (m + 1) m x
        (by unfold deleteIndexProvider; rw [if_neg (by omega)])]
    exact ih (m + 1) _ (by omega)

/-- C8: a script whose source resolution fails (provider error or empty
string) is recorded as source_unavailable before classification (its loop
contribution is the same for every classifier) and excluded; the failure is
local: the report over the remaining scripts is unchanged (same entries,
same totals, same included count), with one more total script, one more
filtered-out script, and exactly one extra source_unavailable reason. -/
theorem c8_source_unavailable_is_local :
    ∀ (pre post : List ScriptCoverage) (bad : ScriptCoverage)
      (sourceProvider : SourceProvider) (options : CoverageFilterOptions),
      sourceResolutionFailed sourceProvider pre.length bad →
      (∀ cls, pipeStepWith cls options sourceProvider initPipeState (pre.length, bad) =
          { initPipeState with reasons := [gs "source_unavailable"] }) ∧
      (reportPipeline (pre ++ bad :: post) sourceProvider options).entries =
        (reportPipeline (pre ++ post)
          (deleteIndexProvider sourceProvider pre.length) options).entries ∧
      (reportPipeline (pre ++ bad :: post) sourceProvider options).totals =
        (reportPipeline (pre ++ post)
          (deleteIndexProvider sourceProvider pre.length) options).totals ∧
      (reportPipeline (pre ++ bad :: post) sourceProvider options).stats.totalScripts =
        (reportPipeline (pre ++ post)
          (deleteIndexProvider sourceProvider pre.length) options).stats.totalScripts + 1 ∧
      (reportPipeline (pre ++ bad :: post) sourceProvider options).stats.applicationScripts =
        (reportPipeline (pre ++ post)
          (deleteIndexProvider sourceProvider pre.length) options).stats.applicationScripts ∧
      (reportPipeline (pre ++ bad :: post) sourceProvider options).stats.filteredOut =
        (reportPipeline (pre ++ post)
          (deleteIndexProvider sourceProvider pre.length) options).stats.filteredOut + 1 ∧
      (∀ reason,
        (reportPipeline (pre ++ bad :: post) sourceProvider options).stats.reasonCount reason =
          (reportPipeline (pre ++ post)
            (deleteIndexProvider sourceProvider pre.length) options).stats.reasonCount reason +
            (if reason = gs "source_unavailable" then 1 else 0)) := by
  intro pre post bad p options hfail
  have hshift : ReasonShifted
      (runPipeline (pre ++ post) (deleteIndexProvider p pre.length) options)
      (runPipeline (pre ++ bad :: post) p options) := by
    unfold runPipeline
    have e1 : (pre ++ bad :: post).enum =
        List.enumFrom 0 pre ++ ((pre.length, bad) :: List.enumFrom (pre.length + 1) post) := by
      show List.enumFrom 0 (pre ++ bad :: post) = _
      rw [List.enumFrom_append, Nat.zero_add]
      exact rfl
    have e2 : (pre ++ post).enum =
        List.enumFrom 0 pre ++ List.enumFrom pre.length post := by
      show List.enumFrom 0 (pre ++ post) = _
      rw [List.enumFrom_append, Nat.zero_add]
    rw [e1, e2, List.foldl_append, List.foldl_append, List.foldl_cons]
    have hpre : (List.enumFrom 0 pre).foldl
        (pipeStepWith isApplicationScript options (deleteIndexProvider p pre.length))
          initPipeState =
        (List.enumFrom 0 pre).foldl (pipeStepWith isApplicationScript options p)
          initPipeState := by
      apply foldl_enumFrom_provider_congr
      intro k r hk1 hk2
      unfold deleteIndexProvider
      rw [if_pos (by omega)]
    rw [hpre,
      pipeStepWith_failed isApplicationScript options p pre.length bad _ hfail,
      foldl_enumFrom_shift isApplicationScript options p pre.length post pre.length _ le_rfl]
    apply foldl_reasonShifted
    exact ⟨rfl, rfl, _, [], (List.append_nil _).symm, rfl⟩
  obtain ⟨hent, htot, l1, l2, hr1, hr2⟩ := hshift
  refine ⟨?_, ?_, ?_, ?_, ?_, ?_, ?_⟩
  · intro cls
    exact pipeStepWith_failed cls options p pre.length bad initPipeState hfail
  · unfold reportPipeline
    dsimp only
    rw [hent]
  · unfold reportPipeline
    dsimp only
    rw [htot]
  · unfold reportPipeline
    dsimp only
    simp only [List.length_append, List.length_cons]
    push_cast
    omega
  · unfold reportPipeline
    dsimp only
    rw [hent]
  · unfold reportPipeline
    dsimp only
    rw [hent]
    simp only [List.length_append, List.length_cons]
    push_cast
    omega
  · intro reason
    unfold reportPipeline FilteringStats.reasonCount
    dsimp only
    rw [hr1, hr2]
    simp only [List.count_append, List.count_cons]
    by_cases hr : reason = gs "source_unavailable"
    · simp [hr]
      omega
    · have : (gs "source_unavailable" == reason) = false := by
        simp only [beq_eq_false_iff_ne, ne_eq]
        exact fun hx => hr hx.symm
      simp [hr, this]

/-- C8 (witness): the locality law applied to a one-script run whose
provider always fails. -/
theorem c8_source_unavailable_witness :
    (reportPipeline [⟨gs "1", gs "", []⟩]
        (fun _ _ => Except.error (gs "boom"))
        (getFilterOptions (gs "application"))).stats.totalScripts =
      (reportPipeline []
        (deleteIndexProvider (fun _ _ => Except.error (gs "boom")) 0)
        (getFilterOptions (gs "application"))).stats.totalScripts + 1 :=
  (c8_source_unavailable_is_local [] [] ⟨gs "1", gs "", []⟩
    (fun _ _ => Except.error (gs "boom"))
    (getFilterOptions (gs "application")) trivial).2.2.2.1
